import Mathlib

/-!
Verification of `eznet_keras/models/keras_smart_module.py` (class `KerasSmartModel`).

The Python class is glue code around a deep-learning framework: it marshals a
hyperparameter dictionary into instance attributes, assembles a list of training
callbacks, and delegates compile/fit/save/export to helper functions.  We embed
the class shallowly:

* Python values are `PyVal` (None, bool, int, float-as-rational, string, list,
  dict); a Python `dict` is an association list `PyDict` with first-match
  lookup, which matches Python's unique-key dictionaries.
* `KerasSmartModel.__init__` becomes `KerasSmartModel.init : PyVal → Option
  KerasSmartModelState`; the `Option` is `none` exactly when the Python code
  would raise (a truthy non-dict argument, or `int()` applied to a value it
  cannot convert).
* The framework helpers (`compile_keras_model`, `fit_keras_model`,
  `save_keras_model`, `export_keras_model`, `EarlyStopAtCriteria`,
  `GarbageCollectionCallback`) live in `eznet_keras.utils`, which is not part
  of the sources under verification; they are modelled as opaque call events
  (`TrainEvent`) recording exactly the arguments the class passes them, and,
  for the threshold early-stopping callback, a stop predicate modelled from the
  specification's glossary.
-/

/-- A Python runtime value, as used by the hyperparameter dictionary.  Floats
are modelled as rationals: the class only copies, compares for truthiness, and
truncates them, so no floating-point rounding is ever exercised. -/
inductive PyVal where
  | none : PyVal
  | bool : Bool → PyVal
  | int : Int → PyVal
  | float : Rat → PyVal
  | str : String → PyVal
  | list : List PyVal → PyVal
  | dict : List (String × PyVal) → PyVal

/-- A Python dictionary with string keys: an association list with unique keys
and first-match lookup (Python dicts cannot hold duplicate keys, so first-match
lookup is exact). -/
abbrev PyDict := List (String × PyVal)

/-- Python truthiness (`bool(v)`): None, False, zero, empty string and empty
containers are falsy, everything else is truthy. -/
def pyTruthy : PyVal → Bool
  | PyVal.none => false
  | PyVal.bool b => b
  | PyVal.int n => n != 0
  | PyVal.float q => q != 0
  | PyVal.str s => s != ""
  | PyVal.list l => !l.isEmpty
  | PyVal.dict d => !d.isEmpty

/-- Python `d.get(k)`: the stored value, or None when the key is absent. -/
def pyGet (d : PyDict) (k : String) : PyVal :=
  (List.lookup k d).getD PyVal.none

/-- Python `k in d`: key membership. -/
def PyDict.hasKey (d : PyDict) (k : String) : Bool :=
  (List.lookup k d).isSome

/-- Python `d[k] = v`: overwrite the first binding of `k` in place, or append a
new binding when the key is absent. -/
def PyDict.setKey : PyDict → String → PyVal → PyDict
  | [], k, v => [(k, v)]
  | (k', v') :: rest, k, v =>
    if k' = k then (k, v) :: rest else (k', v') :: PyDict.setKey rest k v

/-- Truncation of a rational toward zero, as Python `int()` does on a float. -/
def pyTrunc (q : Rat) : Int :=
  if q < 0 then -(Int.ofNat ((-q).num.toNat / (-q).den)) else Int.ofNat (q.num.toNat / q.den)

/-- Python `int(v)`.  `none` models the `TypeError`/`ValueError` raised on
values `int()` cannot convert (string parsing is approximated by decimal
`String.toInt?`). -/
def pyToInt : PyVal → Option Int
  | PyVal.bool b => some (if b then 1 else 0)
  | PyVal.int n => some n
  | PyVal.float q => some (pyTrunc q)
  | PyVal.str s => s.toInt?
  | _ => Option.none

/-- A training callback, carrying exactly the constructor arguments the Python
code passes.  `garbageCollection` is `GarbageCollectionCallback()`;
`earlyStopping monitor mode patience` is `tf.keras.callbacks.EarlyStopping`;
`modelCheckpoint filepath monitor verbose save_best_only mode` is
`tf.keras.callbacks.ModelCheckpoint`; `earlyStopAtCriteria monitor mode value`
is `EarlyStopAtCriteria` from `eznet_keras.utils`. -/
inductive Callback where
  | garbageCollection : Callback
  | earlyStopping (monitor : String) (mode : String) (patience : PyVal) : Callback
  | modelCheckpoint (filepath : PyVal) (monitor : String) (verbose : Int)
      (save_best_only : Bool) (mode : String) : Callback
  | earlyStopAtCriteria (monitor : PyVal) (mode : PyVal) (value : PyVal) : Callback

/-- Modelled from the spec: `EarlyStopAtCriteria` is defined in
`eznet_keras.utils`, which is outside the sources under verification.  The
specification's glossary describes early stopping as "halting training once a
monitored metric stops improving or crosses a threshold"; accordingly the
callback halts training at the end of an epoch exactly when the monitored
metric has crossed the configured value: reached it from above in mode "min",
from below in mode "max". -/
def callbackStops : Callback → Rat → Bool
  | Callback.earlyStopAtCriteria _ mode value, metric =>
    match mode, value with
    | PyVal.str s, PyVal.float v =>
      if s = "min" then decide (metric ≤ v)
      else if s = "max" then decide (v ≤ metric) else false
    | PyVal.str s, PyVal.int v =>
      if s = "min" then decide (metric ≤ (v : Rat))
      else if s = "max" then decide ((v : Rat) ≤ metric) else false
    | _, _ => false
  | _, _ => false

/-- The class attribute `KerasSmartModel.sample_hparams`, transcribed verbatim
from the source. -/
def KerasSmartModel.sample_hparams : PyDict :=
  [("model_name", PyVal.str "KerasSmartModel"),
   ("l2_reg", PyVal.float 0.0001),
   ("batch_size", PyVal.int 16),
   ("epochs", PyVal.int 2),
   ("validation_data", PyVal.float 0.1),
   ("early_stopping_patience_epochs", PyVal.int 10),
   ("learning_rate", PyVal.float 0.0001),
   ("exponential_decay_rate", PyVal.float 0.99),
   ("loss_function", PyVal.str "categorical_crossentropy"),
   ("loss_function_params", PyVal.none),
   ("metrics", PyVal.list [PyVal.str "accuracy"]),
   ("optimizer", PyVal.str "Adam"),
   ("optimizer_params", PyVal.none),
   ("checkpoint_path", PyVal.none),
   ("early_stopping_monitor", PyVal.str "loss"),
   ("early_stopping_mode", PyVal.str "min"),
   ("early_stopping_value", PyVal.float 0.000001)]

/-- Modelled from the spec: the object returned by `fit_keras_model` (in
`eznet_keras.utils`, outside the sources) and stored in `self.history` is the
framework's training History; we model it as a record of the arguments of the
fit call that produced it. -/
structure NDArray where
  shape : List Nat

/-- The History object returned by the (spec-modelled) fit helper, recording
the arguments `KerasSmartModel.fit_model` passed to `fit_keras_model`. -/
structure History where
  x_train : NDArray
  y_train : NDArray
  x_val : Option NDArray
  y_val : Option NDArray
  batch_size : Int
  epochs : PyVal
  callbacks : List Callback
  verbose : Int

/-- The instance attributes `KerasSmartModel.__init__` assigns (Python leading
underscores dropped from the field names). -/
structure KerasSmartModelState where
  hparams : PyDict
  batch_size : Int
  loss_function : PyVal
  metrics_list : PyVal
  optimizer : PyVal
  optimizer_params : PyVal
  early_stopping_patience_epochs : PyVal
  learning_rate : PyVal
  exponential_decay_rate : PyVal
  validation_data : PyVal
  epochs : PyVal
  l2_reg : PyVal
  history : Option History
  batch_input_shape : Int × Int
  batch_output_shape : Int × Int
  callbacks : List Callback
  es : Option Callback
  chkpt : PyVal
  chk : Option Callback
  early_stopping_monitor : PyVal
  early_stopping_mode : PyVal
  early_stopping_value : PyVal
  es_crit : Option Callback

/-- The value assigned to `self._batch_size`:
`int(hparams["batch_size"]) if hparams.get("batch_size") else 32`.
`none` models the exception `int()` would raise. -/
def KerasSmartModel.batchSizeOf (hparams : PyDict) : Option Int :=
  if pyTruthy (pyGet hparams "batch_size") then pyToInt (pyGet hparams "batch_size") else some 32

/-- The attribute record `__init__` builds from the (post-defaulting)
hyperparameter dictionary, given the already-computed batch size; the `let`
bindings follow the Python statements in source order. -/
def KerasSmartModel.mkState (hparams : PyDict) (bs : Int) : KerasSmartModelState :=
  let es : Option Callback :=
    if pyTruthy (pyGet hparams "early_stopping_patience_epochs") then
      some (Callback.earlyStopping
        (if PyDict.hasKey hparams "validation_data" then "val_loss" else "loss")
        "min" (pyGet hparams "early_stopping_patience_epochs"))
    else Option.none
  let chkpt := pyGet hparams "checkpoint_path"
  let chk : Option Callback :=
    if pyTruthy chkpt then
      some (Callback.modelCheckpoint chkpt
        (if PyDict.hasKey hparams "validation_data" then "val_loss" else "loss")
        0 true "min")
    else Option.none
  let esCrit : Option Callback :=
    if pyTruthy (pyGet hparams "early_stopping_monitor") then
      some (Callback.earlyStopAtCriteria (pyGet hparams "early_stopping_monitor")
        (pyGet hparams "early_stopping_mode") (pyGet hparams "early_stopping_value"))
    else Option.none
  { hparams := hparams
    batch_size := bs
    loss_function := pyGet hparams "loss_function"
    metrics_list := pyGet hparams "metrics"
    optimizer := pyGet hparams "optimizer"
    optimizer_params := pyGet hparams "optimizer_params"
    early_stopping_patience_epochs := pyGet hparams "early_stopping_patience_epochs"
    learning_rate := pyGet hparams "learning_rate"
    exponential_decay_rate := pyGet hparams "exponential_decay_rate"
    validation_data := pyGet hparams "validation_data"
    epochs := pyGet hparams "epochs"
    l2_reg := if pyTruthy (pyGet hparams "l2_reg") then pyGet hparams "l2_reg" else PyVal.float 0
    history := Option.none
    batch_input_shape := (bs, 1)
    batch_output_shape := (bs, 1)
    callbacks := [Callback.garbageCollection] ++ es.toList ++ chk.toList ++ esCrit.toList
    es := es
    chkpt := chkpt
    chk := chk
    early_stopping_monitor := pyGet hparams "early_stopping_monitor"
    early_stopping_mode := pyGet hparams "early_stopping_mode"
    early_stopping_value := pyGet hparams "early_stopping_value"
    es_crit := esCrit }

/-- The body of `__init__` after the `if not hparams` defaulting: compute
`self._batch_size` (the only fallible step) and assign every attribute. -/
def KerasSmartModel.initCore (hparams : PyDict) : Option KerasSmartModelState :=
  (KerasSmartModel.batchSizeOf hparams).map (KerasSmartModel.mkState hparams)

/-- `KerasSmartModel.__init__(self, hparams)`.  The argument is any Python
value (the signature defaults it to None): a falsy argument is replaced by
`sample_hparams`; a truthy non-dict raises (modelled as `none`) at the first
`.get` attribute access. -/
def KerasSmartModel.init (hparams : PyVal) : Option KerasSmartModelState :=
  if pyTruthy hparams then
    match hparams with
    | PyVal.dict d => KerasSmartModel.initCore d
    | _ => Option.none
  else
    KerasSmartModel.initCore KerasSmartModel.sample_hparams

/-- `KerasSmartModel.call(self, x, *args, **kwargs)` returns
`self.net(x, *args, **kwargs)`.  The wrapped framework model is an arbitrary
function `net` (its argument bundles `x` with the extra arguments). -/
def KerasSmartModel.callMethod {α β : Type} (net : α → β) (x : α) : β :=
  net x

/-- `KerasSmartModel.summary(self)` returns `self.net.summary()`, here the
given result of the wrapped model's own summary method. -/
def KerasSmartModel.summaryMethod {σ : Type} (netSummary : σ) : σ :=
  netSummary

/-- `KerasSmartModel.get_config(self)`: the dictionary returned by the
framework base class (modelled as the arbitrary `superConfig`), with
`config['hparams'] = self.hparams`. -/
def KerasSmartModel.get_config (m : KerasSmartModelState) (superConfig : PyDict) : PyDict :=
  PyDict.setKey superConfig "hparams" (PyVal.dict m.hparams)

/-- `KerasSmartModel.from_config(cls, config)`: `cls(config['hparams'])`.
`none` models the `KeyError` when the key is absent. -/
def KerasSmartModel.from_config (config : PyDict) : Option KerasSmartModelState :=
  match List.lookup "hparams" config with
  | Option.none => Option.none
  | some v => KerasSmartModel.init v

/-- Modelled from the spec: the helpers `compile_keras_model`,
`fit_keras_model`, `save_keras_model` and `export_keras_model` live in
`eznet_keras.utils`, outside the sources under verification; each delegated
call is recorded as an event carrying exactly the arguments the class passes
(the wrapped `self.net` argument, an opaque framework object, is omitted). -/
inductive TrainEvent where
  | compileCall (batch_size : Int) (learning_rate : PyVal) (optimizerArg : PyVal)
      (loss_function : PyVal) (metrics_list : PyVal) (optimizer_params : PyVal)
      (exponential_decay_rate : PyVal) (num_samples : Option Int) : TrainEvent
  | fitCall (h : History) : TrainEvent
  | saveCall (h : History) (path : PyVal) (hparams : PyDict) : TrainEvent
  | exportCall (path : PyVal) : TrainEvent

/-- `KerasSmartModel.compile_model(self, num_samples=None)`: one call to
`compile_keras_model(self.net, self._batch_size, self._learning_rate,
self._optimizer, self._loss_function, self._metrics_list,
self._optimizer_params, self._exponential_decay_rate, num_samples)`. -/
def KerasSmartModel.compile_model (m : KerasSmartModelState) (num_samples : Option Int) :
    TrainEvent :=
  TrainEvent.compileCall m.batch_size m.learning_rate m.optimizer m.loss_function
    m.metrics_list m.optimizer_params m.exponential_decay_rate num_samples

/-- `KerasSmartModel.fit_model`: calls `fit_keras_model(self.net, x_train,
y_train, x_val, y_val, self._batch_size, self._epochs, self._callbacks,
verbose)`, stores the returned History in `self.history`, and returns it. -/
def KerasSmartModel.fit_model (m : KerasSmartModelState) (x_train y_train : NDArray)
    (x_val y_val : Option NDArray) (verbose : Int) :
    KerasSmartModelState × History :=
  let h : History :=
    { x_train := x_train, y_train := y_train, x_val := x_val, y_val := y_val
      batch_size := m.batch_size, epochs := m.epochs, callbacks := m.callbacks
      verbose := verbose }
  ({ m with history := some h }, h)

/-- `KerasSmartModel.train_model`: `N = x_train.shape[0]` (raises, i.e. `none`,
on a zero-dimensional array), then `compile_model(num_samples=N)`, then
`fit_model(...)`, then `save_keras_model(self.net, self.history.history,
saveto, self.hparams)` only if `saveto` is truthy, then
`export_keras_model(self.net, export)` only if `export` is truthy.  The Python
method returns None; the model returns the updated state together with the
trace of delegated calls in execution order. -/
def KerasSmartModel.train_model (m : KerasSmartModelState) (x_train y_train : NDArray)
    (x_val y_val : Option NDArray) (verbose : Int) (saveto exportPath : PyVal) :
    Option (KerasSmartModelState × List TrainEvent) :=
  match x_train.shape with
  | [] => Option.none
  | n :: _ =>
    let cEv := KerasSmartModel.compile_model m (some (Int.ofNat n))
    let p := KerasSmartModel.fit_model m x_train y_train x_val y_val verbose
    some (p.1,
      [cEv, TrainEvent.fitCall p.2]
        ++ (if pyTruthy saveto then [TrainEvent.saveCall p.2 saveto p.1.hparams] else [])
        ++ (if pyTruthy exportPath then [TrainEvent.exportCall exportPath] else []))

/-- Unfolding lemma: a successful `initCore` yields exactly `mkState` at the
computed batch size. -/
theorem KerasSmartModel.initCore_eq_some {d : PyDict} {m : KerasSmartModelState}
    (h : KerasSmartModel.initCore d = some m) :
    KerasSmartModel.batchSizeOf d = some m.batch_size ∧
      m = KerasSmartModel.mkState d m.batch_size := by
  unfold KerasSmartModel.initCore at h
  cases hbs : KerasSmartModel.batchSizeOf d with
  | none => rw [hbs] at h; simp at h
  | some bs =>
    rw [hbs] at h
    simp only [Option.map_some', Option.some.injEq] at h
    subst h
    have hproj : (KerasSmartModel.mkState d bs).batch_size = bs := rfl
    constructor
    · rw [hproj]
    · rw [hproj]

/-- The `hparams` attribute stores the post-defaulting dictionary, which is
always truthy, and re-running the constructor core on it reproduces the same
state. -/
theorem KerasSmartModel.init_stable {v : PyVal} {m : KerasSmartModelState}
    (h : KerasSmartModel.init v = some m) :
    KerasSmartModel.initCore m.hparams = some m ∧
      pyTruthy (PyVal.dict m.hparams) = true := by
  unfold KerasSmartModel.init at h
  by_cases ht : pyTruthy v = true
  · rw [if_pos ht] at h
    cases v with
    | dict d =>
      have hd : m.hparams = d := by
        have := (KerasSmartModel.initCore_eq_some h).2
        rw [this]
        rfl
      constructor
      · rw [hd]; exact h
      · rw [hd]; exact ht
    | none => simp at h
    | bool b => simp at h
    | int n => simp at h
    | float q => simp at h
    | str s => simp at h
    | list l => simp at h
  · rw [if_neg ht] at h
    have hd : m.hparams = KerasSmartModel.sample_hparams := by
      have := (KerasSmartModel.initCore_eq_some h).2
      rw [this]
      rfl
    constructor
    · rw [hd]; exact h
    · rw [hd]; rfl

/-- A conditionally-built optional callback contributes its singleton to the
callbacks list exactly when the condition holds. -/
theorem optIte_toList {α : Type} (c : Prop) [Decidable c] (x : α) :
    (if c then some x else Option.none).toList = if c then [x] else [] := by
  split <;> rfl

/-- The callbacks list `__init__` assembles: garbage collection first, then the
patience early stopping, checkpoint, and threshold early stopping callbacks,
each present exactly when its hyperparameter is truthy. -/
theorem KerasSmartModel.mkState_callbacks (d : PyDict) (bs : Int) :
    (KerasSmartModel.mkState d bs).callbacks
      = [Callback.garbageCollection]
        ++ (if pyTruthy (pyGet d "early_stopping_patience_epochs") then
              [Callback.earlyStopping
                (if PyDict.hasKey d "validation_data" then "val_loss" else "loss") "min"
                (pyGet d "early_stopping_patience_epochs")] else [])
        ++ (if pyTruthy (pyGet d "checkpoint_path") then
              [Callback.modelCheckpoint (pyGet d "checkpoint_path")
                (if PyDict.hasKey d "validation_data" then "val_loss" else "loss") 0 true "min"]
            else [])
        ++ (if pyTruthy (pyGet d "early_stopping_monitor") then
              [Callback.earlyStopAtCriteria (pyGet d "early_stopping_monitor")
                (pyGet d "early_stopping_mode") (pyGet d "early_stopping_value")] else []) := by
  simp only [KerasSmartModel.mkState]
  split_ifs <;> rfl

/-- A key that is absent reads back as None through `.get`. -/
theorem pyGet_of_not_hasKey {d : PyDict} {k : String} (h : PyDict.hasKey d k = false) :
    pyGet d k = PyVal.none := by
  unfold PyDict.hasKey at h
  unfold pyGet
  cases hl : List.lookup k d with
  | none => rfl
  | some w => rw [hl] at h; simp at h

/-- Looking up a key immediately after setting it returns the new value. -/
theorem lookup_setKey (d : PyDict) (k : String) (x : PyVal) :
    List.lookup k (PyDict.setKey d k x) = some x := by
  induction d with
  | nil => simp [PyDict.setKey, List.lookup]
  | cons p rest ih =>
    by_cases hk : p.1 = k
    · simp [PyDict.setKey, hk, List.lookup]
    · have hne : (k == p.1) = false := by
        simp only [beq_eq_false_iff_ne, ne_eq]
        exact fun hkk => hk hkk.symm
      simp [PyDict.setKey, hk, List.lookup, hne, ih]

/-- C3: when the constructor is given no hyperparameter dictionary (None, the
signature default, or an empty dictionary), the dictionary is default-populated:
the resulting state is exactly the one the constructor core builds from the
class-level `sample_hparams`, so the `hparams` attribute equals `sample_hparams`
and every derived attribute is taken from it. -/
theorem C3_default_populated :
    KerasSmartModel.init PyVal.none
        = KerasSmartModel.initCore KerasSmartModel.sample_hparams
      ∧ KerasSmartModel.init (PyVal.dict [])
        = KerasSmartModel.initCore KerasSmartModel.sample_hparams
      ∧ ∃ m, KerasSmartModel.init PyVal.none = some m
          ∧ m.hparams = KerasSmartModel.sample_hparams := by
  refine ⟨rfl, rfl, ?_⟩
  exact ⟨_, rfl, rfl⟩

/-- C5: the training/evaluation entry points are pure delegation: `call`
returns exactly what the wrapped framework model returns on the same argument
bundle, and `summary` returns exactly the wrapped model's own summary; the
wrapper adds no computation of its own. -/
theorem C5_pure_delegation :
    (∀ (α β : Type) (net : α → β) (x : α), KerasSmartModel.callMethod net x = net x)
      ∧ ∀ (σ : Type) (s : σ), KerasSmartModel.summaryMethod s = s :=
  ⟨fun _ _ _ _ => rfl, fun _ _ => rfl⟩

/-- The option names the specification's data-model sentence lists for the
hyperparameter record (name, batch size, learning rate, decay rate, loss
function identifier, metrics list, optimizer identifier and parameters, epoch
count, early-stopping patience/monitor/mode/threshold, checkpoint path, L2
regularization weight), in the code's key spellings. -/
def specListedKeys : List String :=
  ["model_name", "batch_size", "learning_rate", "exponential_decay_rate",
   "loss_function", "metrics", "optimizer", "optimizer_params", "epochs",
   "early_stopping_patience_epochs", "early_stopping_monitor",
   "early_stopping_mode", "early_stopping_value", "checkpoint_path", "l2_reg"]

/-- C6 counterexample: `sample_hparams` holds the key `"validation_data"`,
which is not among the options the specification's data-model sentence lists,
so the default record does contain an option beyond the listed ones. -/
theorem C6_counterexample :
    PyDict.hasKey KerasSmartModel.sample_hparams "validation_data" = true
      ∧ specListedKeys.contains "validation_data" = false :=
  ⟨rfl, rfl⟩

/-- C6 (amended): the default record `sample_hparams` contains a key for each
listed option, and exactly two keys beyond them, `"validation_data"` and
`"loss_function_params"`. -/
theorem C6_sample_hparams_keys :
    (specListedKeys ++ ["validation_data", "loss_function_params"]).all
        (fun k => PyDict.hasKey KerasSmartModel.sample_hparams k) = true
      ∧ (KerasSmartModel.sample_hparams.map Prod.fst).all
        (fun k => (specListedKeys ++ ["validation_data", "loss_function_params"]).contains k)
          = true :=
  ⟨rfl, rfl⟩

/-- The concrete hyperparameter dictionary used to refute C1: all three
conditional hyperparameters are present and truthy. -/
def c1Dict : PyDict :=
  [("early_stopping_patience_epochs", PyVal.int 10),
   ("checkpoint_path", PyVal.str "ckpt"),
   ("early_stopping_monitor", PyVal.str "loss"),
   ("early_stopping_mode", PyVal.str "min"),
   ("early_stopping_value", PyVal.float 0.001)]

/-- C1 counterexample: on `c1Dict` the constructor's callbacks list holds four
of the named callbacks, not at most three: garbage collection is included
unconditionally (with no corresponding dictionary entry) on top of the three
conditional callbacks. -/
theorem C1_counterexample :
    (KerasSmartModel.init (PyVal.dict c1Dict)).map KerasSmartModelState.callbacks
        = some [Callback.garbageCollection,
                Callback.earlyStopping "loss" "min" (PyVal.int 10),
                Callback.modelCheckpoint (PyVal.str "ckpt") "loss" 0 true "min",
                Callback.earlyStopAtCriteria (PyVal.str "loss") (PyVal.str "min")
                  (PyVal.float 0.001)]
      ∧ (KerasSmartModel.init (PyVal.dict c1Dict)).map
          (fun m => m.callbacks.length) = some 4 :=
  ⟨rfl, rfl⟩

/-- C1 (amended): for every constructed model, the callbacks list is the
garbage-collection callback (always present, with no dictionary condition)
followed by the patience early-stopping, checkpointing and threshold
early-stopping callbacks, each of those three included exactly when its
hyperparameter entry is present with a truthy value; the list thus holds
between one and four of these callbacks. -/
theorem C1_callbacks (v : PyVal) (m : KerasSmartModelState)
    (h : KerasSmartModel.init v = some m) :
    m.callbacks
        = [Callback.garbageCollection]
          ++ (if pyTruthy (pyGet m.hparams "early_stopping_patience_epochs") then
                [Callback.earlyStopping
                  (if PyDict.hasKey m.hparams "validation_data" then "val_loss" else "loss")
                  "min" (pyGet m.hparams "early_stopping_patience_epochs")] else [])
          ++ (if pyTruthy (pyGet m.hparams "checkpoint_path") then
                [Callback.modelCheckpoint (pyGet m.hparams "checkpoint_path")
                  (if PyDict.hasKey m.hparams "validation_data" then "val_loss" else "loss")
                  0 true "min"] else [])
          ++ (if pyTruthy (pyGet m.hparams "early_stopping_monitor") then
                [Callback.earlyStopAtCriteria (pyGet m.hparams "early_stopping_monitor")
                  (pyGet m.hparams "early_stopping_mode")
                  (pyGet m.hparams "early_stopping_value")] else [])
      ∧ 1 ≤ m.callbacks.length ∧ m.callbacks.length ≤ 4 := by
  obtain ⟨hcore, -⟩ := KerasSmartModel.init_stable h
  obtain ⟨-, hm⟩ := KerasSmartModel.initCore_eq_some hcore
  have hc := (congrArg KerasSmartModelState.callbacks hm).trans
    (KerasSmartModel.mkState_callbacks m.hparams m.batch_size)
  refine ⟨hc, ?_, ?_⟩
  · rw [hc]; simp
  · rw [hc]; split_ifs <;> simp

/-- The concrete hyperparameter dictionary the confirmed-claim witnesses use:
every conditional hyperparameter is present and truthy, and the
`validation_data` key is present (with value None). -/
def witnessDict : PyDict :=
  [("batch_size", PyVal.int 8),
   ("epochs", PyVal.int 3),
   ("validation_data", PyVal.none),
   ("early_stopping_patience_epochs", PyVal.int 5),
   ("checkpoint_path", PyVal.str "ckpt"),
   ("early_stopping_monitor", PyVal.str "val_loss"),
   ("early_stopping_mode", PyVal.str "min"),
   ("early_stopping_value", PyVal.float 0.001)]

/-- The state the constructor produces on `witnessDict`. -/
def witnessState : KerasSmartModelState :=
  KerasSmartModel.mkState witnessDict 8

/-- C1 witness: the amended callbacks-shape theorem evaluated on
`witnessDict`, where all four callbacks appear. -/
theorem C1_callbacks_witness :
    witnessState.callbacks
        = [Callback.garbageCollection,
           Callback.earlyStopping "val_loss" "min" (PyVal.int 5),
           Callback.modelCheckpoint (PyVal.str "ckpt") "val_loss" 0 true "min",
           Callback.earlyStopAtCriteria (PyVal.str "val_loss") (PyVal.str "min")
             (PyVal.float 0.001)]
      ∧ 1 ≤ witnessState.callbacks.length ∧ witnessState.callbacks.length ≤ 4 :=
  ⟨(C1_callbacks (PyVal.dict witnessDict) witnessState rfl).1.trans rfl,
   (C1_callbacks (PyVal.dict witnessDict) witnessState rfl).2.1,
   (C1_callbacks (PyVal.dict witnessDict) witnessState rfl).2.2⟩

/-- C2 counterexample: with the dictionary `{"batch_size": 0}` the batch-size
field is 0 but the instance attribute becomes 32, so that field is not copied
unchanged into its attribute. -/
theorem C2_counterexample :
    pyGet [("batch_size", PyVal.int 0)] "batch_size" = PyVal.int 0
      ∧ (KerasSmartModel.init (PyVal.dict [("batch_size", PyVal.int 0)])).map
          KerasSmartModelState.batch_size = some 32 :=
  ⟨rfl, rfl⟩

/-- C2 (amended): every listed field except the batch size and the L2 weight is
copied unchanged (via `.get`, hence None when absent) into its attribute; the
batch size attribute is `int(batch_size)` when the field is truthy and 32
otherwise, and the L2 attribute is the field when truthy and 0.0 otherwise. -/
theorem C2_attrs (v : PyVal) (m : KerasSmartModelState)
    (h : KerasSmartModel.init v = some m) :
    m.learning_rate = pyGet m.hparams "learning_rate"
      ∧ m.exponential_decay_rate = pyGet m.hparams "exponential_decay_rate"
      ∧ m.loss_function = pyGet m.hparams "loss_function"
      ∧ m.metrics_list = pyGet m.hparams "metrics"
      ∧ m.optimizer = pyGet m.hparams "optimizer"
      ∧ m.optimizer_params = pyGet m.hparams "optimizer_params"
      ∧ m.epochs = pyGet m.hparams "epochs"
      ∧ m.early_stopping_patience_epochs = pyGet m.hparams "early_stopping_patience_epochs"
      ∧ m.early_stopping_monitor = pyGet m.hparams "early_stopping_monitor"
      ∧ m.early_stopping_mode = pyGet m.hparams "early_stopping_mode"
      ∧ m.early_stopping_value = pyGet m.hparams "early_stopping_value"
      ∧ m.chkpt = pyGet m.hparams "checkpoint_path"
      ∧ m.l2_reg = (if pyTruthy (pyGet m.hparams "l2_reg") then pyGet m.hparams "l2_reg"
          else PyVal.float 0)
      ∧ (pyTruthy (pyGet m.hparams "batch_size") = true →
          pyToInt (pyGet m.hparams "batch_size") = some m.batch_size)
      ∧ (pyTruthy (pyGet m.hparams "batch_size") = false → m.batch_size = 32) := by
  obtain ⟨hcore, -⟩ := KerasSmartModel.init_stable h
  obtain ⟨hbs, hm⟩ := KerasSmartModel.initCore_eq_some hcore
  refine ⟨(congrArg KerasSmartModelState.learning_rate hm).trans rfl,
    (congrArg KerasSmartModelState.exponential_decay_rate hm).trans rfl,
    (congrArg KerasSmartModelState.loss_function hm).trans rfl,
    (congrArg KerasSmartModelState.metrics_list hm).trans rfl,
    (congrArg KerasSmartModelState.optimizer hm).trans rfl,
    (congrArg KerasSmartModelState.optimizer_params hm).trans rfl,
    (congrArg KerasSmartModelState.epochs hm).trans rfl,
    (congrArg KerasSmartModelState.early_stopping_patience_epochs hm).trans rfl,
    (congrArg KerasSmartModelState.early_stopping_monitor hm).trans rfl,
    (congrArg KerasSmartModelState.early_stopping_mode hm).trans rfl,
    (congrArg KerasSmartModelState.early_stopping_value hm).trans rfl,
    (congrArg KerasSmartModelState.chkpt hm).trans rfl,
    (congrArg KerasSmartModelState.l2_reg hm).trans rfl, ?_, ?_⟩
  · intro ht
    have hb := hbs
    unfold KerasSmartModel.batchSizeOf at hb
    rw [ht] at hb
    simpa using hb
  · intro ht
    have hb := hbs
    unfold KerasSmartModel.batchSizeOf at hb
    rw [ht] at hb
    simp at hb
    omega

/-- C2 witness: the amended attribute-copy theorem evaluated on `witnessDict`
(epochs copied unchanged, batch size 8 via `int`, absent L2 defaulted to 0). -/
theorem C2_attrs_witness :
    witnessState.epochs = PyVal.int 3
      ∧ pyToInt (pyGet witnessDict "batch_size") = some witnessState.batch_size
      ∧ witnessState.l2_reg = PyVal.float 0 := by
  obtain ⟨-, -, -, -, -, -, h7, -, -, -, -, -, h13, h14, -⟩ :=
    C2_attrs (PyVal.dict witnessDict) witnessState rfl
  exact ⟨h7.trans rfl, h14 rfl, h13.trans rfl⟩

/-- C7: whenever `early_stopping_monitor` is present and truthy, the threshold
early-stopping callback is built from the dictionary's monitor, mode and value
and appended to the callbacks list; when the key is absent the attribute is
None; and (modelled from the spec) the callback halts training exactly when the
monitored metric crosses the threshold: at or below it in mode "min", at or
above it in mode "max". -/
theorem C7_threshold_es (v : PyVal) (m : KerasSmartModelState)
    (h : KerasSmartModel.init v = some m) :
    (pyTruthy (pyGet m.hparams "early_stopping_monitor") = true →
        m.es_crit = some (Callback.earlyStopAtCriteria
            (pyGet m.hparams "early_stopping_monitor")
            (pyGet m.hparams "early_stopping_mode")
            (pyGet m.hparams "early_stopping_value"))
          ∧ Callback.earlyStopAtCriteria (pyGet m.hparams "early_stopping_monitor")
              (pyGet m.hparams "early_stopping_mode")
              (pyGet m.hparams "early_stopping_value") ∈ m.callbacks)
      ∧ (PyDict.hasKey m.hparams "early_stopping_monitor" = false →
          m.es_crit = Option.none)
      ∧ ∀ (mon : PyVal) (thr q : Rat),
          callbackStops (Callback.earlyStopAtCriteria mon (PyVal.str "min")
              (PyVal.float thr)) q = decide (q ≤ thr)
          ∧ callbackStops (Callback.earlyStopAtCriteria mon (PyVal.str "max")
              (PyVal.float thr)) q = decide (thr ≤ q) := by
  obtain ⟨hcore, -⟩ := KerasSmartModel.init_stable h
  obtain ⟨-, hm⟩ := KerasSmartModel.initCore_eq_some hcore
  have hesc : m.es_crit
      = (if pyTruthy (pyGet m.hparams "early_stopping_monitor") then
           some (Callback.earlyStopAtCriteria (pyGet m.hparams "early_stopping_monitor")
             (pyGet m.hparams "early_stopping_mode") (pyGet m.hparams "early_stopping_value"))
         else Option.none) :=
    (congrArg KerasSmartModelState.es_crit hm).trans rfl
  have hcb := (congrArg KerasSmartModelState.callbacks hm).trans
    (KerasSmartModel.mkState_callbacks m.hparams m.batch_size)
  refine ⟨fun ht => ⟨?_, ?_⟩, fun hk => ?_, fun mon thr q => ⟨rfl, rfl⟩⟩
  · rw [hesc, if_pos ht]
  · rw [hcb]
    simp [ht]
  · rw [hesc, pyGet_of_not_hasKey hk]
    rfl

/-- C7 witness: the threshold early-stopping theorem evaluated on
`witnessDict`, including a metric value 0.0005 that crosses the 0.001
threshold in mode "min". -/
theorem C7_threshold_es_witness :
    witnessState.es_crit = some (Callback.earlyStopAtCriteria (PyVal.str "val_loss")
        (PyVal.str "min") (PyVal.float 0.001))
      ∧ Callback.earlyStopAtCriteria (PyVal.str "val_loss") (PyVal.str "min")
          (PyVal.float 0.001) ∈ witnessState.callbacks
      ∧ callbackStops (Callback.earlyStopAtCriteria (PyVal.str "val_loss") (PyVal.str "min")
          (PyVal.float 0.001)) 0.0005 = true := by
  have h := C7_threshold_es (PyVal.dict witnessDict) witnessState rfl
  have h1 := h.1 rfl
  refine ⟨h1.1.trans rfl, h1.2, ?_⟩
  rw [(h.2.2 (PyVal.str "val_loss") 0.001 0.0005).1]
  norm_num

/-- C9: the patience-based EarlyStopping and the ModelCheckpoint callbacks,
when built, monitor val_loss exactly when the key validation_data is present in
the hyperparameter dictionary (whatever its value, including None) and loss
otherwise; both always use mode "min", and the checkpoint callback is created
with save_best_only set. -/
theorem C9_monitors (v : PyVal) (m : KerasSmartModelState)
    (h : KerasSmartModel.init v = some m) :
    (pyTruthy (pyGet m.hparams "early_stopping_patience_epochs") = true →
        m.es = some (Callback.earlyStopping
          (if PyDict.hasKey m.hparams "validation_data" then "val_loss" else "loss")
          "min" (pyGet m.hparams "early_stopping_patience_epochs")))
      ∧ (pyTruthy (pyGet m.hparams "early_stopping_patience_epochs") = false →
          m.es = Option.none)
      ∧ (pyTruthy (pyGet m.hparams "checkpoint_path") = true →
          m.chk = some (Callback.modelCheckpoint (pyGet m.hparams "checkpoint_path")
            (if PyDict.hasKey m.hparams "validation_data" then "val_loss" else "loss")
            0 true "min"))
      ∧ (pyTruthy (pyGet m.hparams "checkpoint_path") = false → m.chk = Option.none) := by
  obtain ⟨hcore, -⟩ := KerasSmartModel.init_stable h
  obtain ⟨-, hm⟩ := KerasSmartModel.initCore_eq_some hcore
  have hes : m.es = (if pyTruthy (pyGet m.hparams "early_stopping_patience_epochs") then
      some (Callback.earlyStopping
        (if PyDict.hasKey m.hparams "validation_data" then "val_loss" else "loss") "min"
        (pyGet m.hparams "early_stopping_patience_epochs")) else Option.none) :=
    (congrArg KerasSmartModelState.es hm).trans rfl
  have hchk : m.chk = (if pyTruthy (pyGet m.hparams "checkpoint_path") then
      some (Callback.modelCheckpoint (pyGet m.hparams "checkpoint_path")
        (if PyDict.hasKey m.hparams "validation_data" then "val_loss" else "loss") 0 true "min")
      else Option.none) :=
    (congrArg KerasSmartModelState.chk hm).trans rfl
  refine ⟨fun ht => ?_, fun ht => ?_, fun ht => ?_, fun ht => ?_⟩
  · rw [hes, if_pos ht]
  · rw [hes, if_neg (by simp [ht])]
  · rw [hchk, if_pos ht]
  · rw [hchk, if_neg (by simp [ht])]

/-- C9 witness: on `witnessDict`, where validation_data is present with value
None, both callbacks monitor val_loss in mode "min" and the checkpoint callback
has save_best_only set. -/
theorem C9_monitors_witness :
    witnessState.es = some (Callback.earlyStopping "val_loss" "min" (PyVal.int 5))
      ∧ witnessState.chk
        = some (Callback.modelCheckpoint (PyVal.str "ckpt") "val_loss" 0 true "min") := by
  have h := C9_monitors (PyVal.dict witnessDict) witnessState rfl
  exact ⟨(h.1 rfl).trans rfl, (h.2.2.1 rfl).trans rfl⟩

/-- C10: the batch-size attribute is 32 whenever the (post-defaulting)
hyperparameter dictionary's batch_size entry is absent or falsy (including 0),
and `int(batch_size)` otherwise; in every case `batch_input_shape` and
`batch_output_shape` are initialized to `(batch_size, 1)`. -/
theorem C10_batch (v : PyVal) (m : KerasSmartModelState)
    (h : KerasSmartModel.init v = some m) :
    KerasSmartModel.batchSizeOf m.hparams = some m.batch_size
      ∧ (pyTruthy (pyGet m.hparams "batch_size") = false → m.batch_size = 32)
      ∧ (pyTruthy (pyGet m.hparams "batch_size") = true →
          pyToInt (pyGet m.hparams "batch_size") = some m.batch_size)
      ∧ m.batch_input_shape = (m.batch_size, 1)
      ∧ m.batch_output_shape = (m.batch_size, 1) := by
  obtain ⟨hcore, -⟩ := KerasSmartModel.init_stable h
  obtain ⟨hbs, hm⟩ := KerasSmartModel.initCore_eq_some hcore
  refine ⟨hbs, ?_, ?_,
    (congrArg KerasSmartModelState.batch_input_shape hm).trans rfl,
    (congrArg KerasSmartModelState.batch_output_shape hm).trans rfl⟩
  · intro ht
    have hb := hbs
    unfold KerasSmartModel.batchSizeOf at hb
    rw [ht] at hb
    simp at hb
    omega
  · intro ht
    have hb := hbs
    unfold KerasSmartModel.batchSizeOf at hb
    rw [ht] at hb
    simpa using hb

/-- C10 witness: on `witnessDict` (batch_size 8, truthy) the attribute is 8 and
both shape attributes are (8, 1). -/
theorem C10_batch_witness :
    pyToInt (pyGet witnessDict "batch_size") = some witnessState.batch_size
      ∧ witnessState.batch_input_shape = (8, 1)
      ∧ witnessState.batch_output_shape = (8, 1) := by
  have h := C10_batch (PyVal.dict witnessDict) witnessState rfl
  exact ⟨h.2.2.1 rfl, h.2.2.2.1.trans rfl, h.2.2.2.2.trans rfl⟩

/-- C8: configuration round-trip.  `get_config` stores the hyperparameter
dictionary under the key "hparams" on top of the framework base configuration,
and `from_config` reconstructs from exactly that key, yielding a model whose
state (in particular its `hparams` attribute) equals the original's. -/
theorem C8_config_roundtrip (v : PyVal) (m : KerasSmartModelState) (superConfig : PyDict)
    (h : KerasSmartModel.init v = some m) :
    List.lookup "hparams" (KerasSmartModel.get_config m superConfig)
        = some (PyVal.dict m.hparams)
      ∧ KerasSmartModel.from_config (KerasSmartModel.get_config m superConfig) = some m := by
  obtain ⟨hcore, htr⟩ := KerasSmartModel.init_stable h
  have hl : List.lookup "hparams" (KerasSmartModel.get_config m superConfig)
      = some (PyVal.dict m.hparams) :=
    lookup_setKey superConfig "hparams" (PyVal.dict m.hparams)
  refine ⟨hl, ?_⟩
  unfold KerasSmartModel.from_config
  rw [hl]
  show KerasSmartModel.init (PyVal.dict m.hparams) = some m
  unfold KerasSmartModel.init
  rw [if_pos htr]
  exact hcore

/-- C8 witness: the round trip evaluated on the state built from
`witnessDict`, with an empty base configuration. -/
theorem C8_config_roundtrip_witness :
    KerasSmartModel.from_config (KerasSmartModel.get_config witnessState [])
      = some witnessState :=
  (C8_config_roundtrip (PyVal.dict witnessDict) witnessState [] rfl).2

/-- C4: for every call to `train_model` on an input whose shape has a first
dimension, the trace of delegated calls is, in order: one compile of the
wrapped network from the stored hyperparameters with `num_samples` equal to
that first dimension, then one fit with the stored batch size, epoch count and
callbacks list, then a save exactly when `saveto` is given (truthy), then an
export exactly when `export` is given (truthy); the training history of the fit
call is left in the `history` attribute and nothing else in the state
changes. -/
theorem C4_train_model (m : KerasSmartModelState) (x_train y_train : NDArray)
    (x_val y_val : Option NDArray) (verbose : Int) (saveto exportPath : PyVal)
    (n : Nat) (rest : List Nat) (hsh : x_train.shape = n :: rest) :
    KerasSmartModel.train_model m x_train y_train x_val y_val verbose saveto exportPath
      = some ({ m with history := some (History.mk x_train y_train x_val y_val
            m.batch_size m.epochs m.callbacks verbose) },
          [KerasSmartModel.compile_model m (some (Int.ofNat n)),
           TrainEvent.fitCall (History.mk x_train y_train x_val y_val
             m.batch_size m.epochs m.callbacks verbose)]
            ++ (if pyTruthy saveto then
                  [TrainEvent.saveCall (History.mk x_train y_train x_val y_val
                    m.batch_size m.epochs m.callbacks verbose) saveto m.hparams] else [])
            ++ (if pyTruthy exportPath then [TrainEvent.exportCall exportPath] else [])) := by
  unfold KerasSmartModel.train_model
  rw [hsh]
  rfl

/-- The training input the C4 witness uses: five samples of two features. -/
def xTrainW : NDArray := NDArray.mk [5, 2]

/-- The training target the C4 witness uses. -/
def yTrainW : NDArray := NDArray.mk [5]

/-- C4 witness: training the `witnessDict` model on a five-sample input with
no save or export path compiles with `num_samples` 5, fits with batch size 8,
epoch count 3 and the stored callbacks, and stores the history. -/
theorem C4_train_model_witness :
    KerasSmartModel.train_model witnessState xTrainW yTrainW Option.none Option.none 1
        PyVal.none PyVal.none
      = some ({ witnessState with history := some (History.mk xTrainW yTrainW Option.none
            Option.none 8 (PyVal.int 3) witnessState.callbacks 1) },
          [KerasSmartModel.compile_model witnessState (some 5),
           TrainEvent.fitCall (History.mk xTrainW yTrainW Option.none Option.none 8
             (PyVal.int 3) witnessState.callbacks 1)]) :=
  (C4_train_model witnessState xTrainW yTrainW Option.none Option.none 1 PyVal.none PyVal.none
    5 [2] rfl).trans rfl
